import Mathlib

/-
Shallow embedding of the comm core module
(src/native/cpp/CommonCpp/NativeModules/CommCoreModule.cpp).

Strings stay Lean `String`s; the JSI payloads that reach
`processMessageStoreOperations` are modelled by explicit raw-value types;
fallible C++ calls (std::stoi, store calls that may throw
std::system_error) are modelled with `Option`/`Except`; the promise of
each public operation is modelled by the list of settlements
(resolve/reject invocations) the execution performs on it.
-/

namespace Comm

/-- Draft record: key and text (entities/Draft). -/
structure Draft where
  key : String
  text : String
  deriving DecidableEq, Repr

/-- Message record, as built in `processMessageStoreOperations`
(lines 306-314): optional fields are explicit `Option`s, matching the
nullable unique-ptr fields of the C++ `Message`. -/
structure Message where
  id : String
  local_id : Option String
  thread : String
  user : String
  type : Int
  future_type : Option Int
  content : Option String
  time : Int
  deriving DecidableEq, Repr

/-- Media record, as built in `processMessageStoreOperations`
(lines 333-334): `container` is the owning message's id. -/
structure Media where
  id : String
  container : String
  thread : String
  uri : String
  type : String
  extras : String
  deriving DecidableEq, Repr

/-- The tagged-variant set of message-store mutations
(RemoveMessagesOperation, RemoveMessagesForThreadsOperation,
ReplaceMessageOperation, RekeyMessageOperation). -/
inductive MessageStoreOperation where
  | removeMessages (ids : List String)
  | removeMessagesForThreads (threadIds : List String)
  | replaceMessage (msg : Message) (media : List Media)
  | rekeyMessage (fromKey : String) (toKey : String)
  deriving DecidableEq, Repr

/-- Committed state of the message store visible through the query
executor: message rows and media rows. -/
structure DB where
  messages : List Message
  media : List Media
  deriving DecidableEq, Repr

/-- Outcome delivered to a pending-result handle: one `resolve` or one
`reject` invocation, with the payload shapes the module actually uses. -/
inductive Settlement where
  | resolved
  | resolvedStr (s : String)
  | resolvedDrafts (ds : List Draft)
  | rejected (e : String)
  deriving DecidableEq, Repr

/-- Raw media-info entry of a `replace` payload, all four fields read
with `asString` (lines 324-331). -/
structure RawMedia where
  id : String
  uri : String
  type : String
  extras : String
  deriving DecidableEq, Repr

/-- Raw `replace` payload as read from the caller's JSI object
(lines 280-337).  `type` and `time` arrive as strings and are parsed
with std::stoi / std::stoll; `local_id`, `future_type` and `content`
are taken only when the property is a string (otherwise null), and
`media_infos` only when it is an object. -/
structure RawReplacePayload where
  id : String
  local_id : Option String
  thread : String
  user : String
  type : String
  future_type : Option String
  content : Option String
  time : String
  media_infos : Option (List RawMedia)
  deriving DecidableEq, Repr

/-- Payload shapes a raw operation can carry.  The code reads the
payload's fields according to the operation's `type` tag; a payload of
the wrong shape makes the JSI accessors throw, which `parseRawOp`
models as a thrown type error. -/
inductive RawPayload where
  | removeIds (ids : List String)
  | removeThreads (threadIDs : List String)
  | replaceMsg (p : RawReplacePayload)
  | rekey (fromKey : String) (toKey : String)
  deriving DecidableEq, Repr

/-- One element of the caller's `operations` array: a string `type` tag
and a payload object. -/
structure RawOp where
  type : String
  payload : RawPayload
  deriving DecidableEq, Repr

/-- std::stoi / std::stoll on a `String`: skip leading whitespace, an
optional sign, then the longest run of decimal digits; `none` when no
digits are found (std::invalid_argument).  Overflow is not modelled. -/
def cppParseInt (s : String) : Option Int :=
  let cs := s.toList.dropWhile Char.isWhitespace
  let signed : Int × List Char :=
    match cs with
    | '-' :: rest => (-1, rest)
    | '+' :: rest => (1, rest)
    | _ => (1, cs)
  let ds := signed.2.takeWhile (fun c => c.isDigit)
  if ds.isEmpty then none
  else some (signed.1 * (ds.foldl (fun acc c => acc * 10 + (c.toNat - 48)) 0 : Nat))

/-- Result of examining one element of the caller's operations array:
a constructed operation, an unsupported type tag (which makes the call
return an already-rejected promise), or a C++ exception thrown while
reading the payload (JSI type error or std::stoi/std::stoll failure) —
such an exception is caught nowhere in `processMessageStoreOperations`
and escapes the call synchronously. -/
inductive ParsedStep where
  | ok (op : MessageStoreOperation)
  | unsupported (t : String)
  | thrown (e : String)
  deriving DecidableEq, Repr

/-- Parse the `replace` payload (lines 280-340): stoi on `type`, stoi
on `future_type` when present, stoll on `time`; media rows are built
with the message's id as container and the message's thread. -/
def parseReplace (p : RawReplacePayload) : ParsedStep :=
  match cppParseInt p.type with
  | none => ParsedStep.thrown "stoi"
  | some ty =>
    let futureParsed : Except String (Option Int) :=
      match p.future_type with
      | none => Except.ok none
      | some fs =>
        match cppParseInt fs with
        | none => Except.error "stoi"
        | some v => Except.ok (some v)
    match futureParsed with
    | Except.error e => ParsedStep.thrown e
    | Except.ok ft =>
      match cppParseInt p.time with
      | none => ParsedStep.thrown "stoll"
      | some tm =>
        let msg : Message :=
          { id := p.id, local_id := p.local_id, thread := p.thread,
            user := p.user, type := ty, future_type := ft,
            content := p.content, time := tm }
        let media := (p.media_infos.getD []).map fun mi =>
          { id := mi.id, container := p.id, thread := p.thread,
            uri := mi.uri, type := mi.type, extras := mi.extras : Media }
        ParsedStep.ok (MessageStoreOperation.replaceMessage msg media)

/-- Examine one raw operation according to its `type` tag
(lines 250-357).  A payload whose shape does not match the tag makes
the JSI `asObject`/`asString` accessors throw. -/
def parseRawOp (r : RawOp) : ParsedStep :=
  if r.type = "remove" then
    match r.payload with
    | RawPayload.removeIds ids =>
        ParsedStep.ok (MessageStoreOperation.removeMessages ids)
    | _ => ParsedStep.thrown "type error"
  else if r.type = "remove_messages_for_threads" then
    match r.payload with
    | RawPayload.removeThreads tids =>
        ParsedStep.ok (MessageStoreOperation.removeMessagesForThreads tids)
    | _ => ParsedStep.thrown "type error"
  else if r.type = "replace" then
    match r.payload with
    | RawPayload.replaceMsg p => parseReplace p
    | _ => ParsedStep.thrown "type error"
  else if r.type = "rekey" then
    match r.payload with
    | RawPayload.rekey f t =>
        ParsedStep.ok (MessageStoreOperation.rekeyMessage f t)
    | _ => ParsedStep.thrown "type error"
  else
    ParsedStep.unsupported r.type

/-- Outcome of the construction loop over the whole operations array:
the loop throws at the first malformed payload, returns an
already-rejected promise at the first unsupported type tag, and
otherwise yields the constructed operation batch. -/
inductive ParseOutcome where
  | thrown (e : String)
  | earlyReject (e : String)
  | parsed (ops : List MessageStoreOperation)
  deriving DecidableEq, Repr

/-- The construction loop of `processMessageStoreOperations`
(lines 250-358), element by element in caller order. -/
def parseOps : List RawOp → ParseOutcome
  | [] => ParseOutcome.parsed []
  | r :: rest =>
    match parseRawOp r with
    | ParsedStep.thrown e => ParseOutcome.thrown e
    | ParsedStep.unsupported t =>
        ParseOutcome.earlyReject ("unsupported operation: " ++ t)
    | ParsedStep.ok op =>
      match parseOps rest with
      | ParseOutcome.parsed ops => ParseOutcome.parsed (op :: ops)
      | other => other

/-- Store-level events observable at the query-executor boundary during
the batch job: opening the transaction, one `execute()` per operation,
committing. -/
inductive StoreEvent where
  | begin
  | apply (op : MessageStoreOperation)
  | commit
  deriving DecidableEq, Repr

/-- Run the operations in order against the store inside the open
transaction; stops at the first operation whose `execute()` throws a
store error.  Returns the executed prefix (the operations whose
`execute()` was invoked, in order) together with the surviving state or
the error.  The per-operation store behaviour `execOp` is a parameter:
each `execute()` either produces the next store state or throws. -/
def applyOpsTrace (execOp : MessageStoreOperation → DB → Except String DB) :
    List MessageStoreOperation → DB →
    List MessageStoreOperation × Except String DB
  | [], db => ([], Except.ok db)
  | op :: rest, db =>
    match execOp op db with
    | Except.ok db2 =>
      let r := applyOpsTrace execOp rest db2
      (op :: r.1, r.2)
    | Except.error e => ([op], Except.error e)

/-- Full outcome of one `processMessageStoreOperations` call:
`thrown` is the C++ exception escaping the call synchronously (no
promise exists then); `settlements` lists every resolve/reject
performed on the handle; `dbTaskSubmitted` records whether a job was
scheduled on the database worker; `trace` the store events; `db` the
committed store state after the call (uncommitted transaction effects
are not observable, per the store's transaction contract). -/
structure ProcessResult where
  thrown : Option String
  settlements : List Settlement
  dbTaskSubmitted : Bool
  trace : List StoreEvent
  db : DB
  deriving DecidableEq, Repr

/-- `processMessageStoreOperations` (lines 244-383): the construction
loop runs synchronously on the caller thread; an unsupported type tag
short-circuits to a rejected promise with no database task; a malformed
payload throws out of the call; otherwise one job is scheduled on the
database worker which brackets the batch in one
beginTransaction/commitTransaction pair, catches any store error, and
settles the promise exactly once — rejecting with the error and leaving
the committed state unchanged, or resolving after the commit. -/
def processMessageStoreOperations
    (execOp : MessageStoreOperation → DB → Except String DB)
    (rawOps : List RawOp) (db : DB) : ProcessResult :=
  match parseOps rawOps with
  | ParseOutcome.thrown e =>
    { thrown := some e, settlements := [], dbTaskSubmitted := false,
      trace := [], db := db }
  | ParseOutcome.earlyReject e =>
    { thrown := none, settlements := [Settlement.rejected e],
      dbTaskSubmitted := false, trace := [], db := db }
  | ParseOutcome.parsed ops =>
    let r := applyOpsTrace execOp ops db
    match r.2 with
    | Except.ok db2 =>
      { thrown := none, settlements := [Settlement.resolved],
        dbTaskSubmitted := true,
        trace := StoreEvent.begin ::
          (r.1.map StoreEvent.apply ++ [StoreEvent.commit]),
        db := db2 }
    | Except.error e =>
      { thrown := none, settlements := [Settlement.rejected e],
        dbTaskSubmitted := true,
        trace := StoreEvent.begin :: r.1.map StoreEvent.apply,
        db := db }

/-- Modelled from the spec: concrete per-variant store semantics of the
four mutation operations (spec 4.3), missing from src/ (the operations'
`execute()` bodies live in MessageStoreOperations.h).  RemoveByIds
deletes the messages with the given ids (missing ids are not errors);
RemoveByThreadIds deletes the messages of the given threads;
ReplaceMessage upserts the message and replaces its media rows as a
unit; RekeyThread re-tags records from one thread id to another. -/
def execOpSpec : MessageStoreOperation → DB → Except String DB
  | MessageStoreOperation.removeMessages ids, db =>
    Except.ok { db with
      messages := db.messages.filter (fun m => !(ids.contains m.id)) }
  | MessageStoreOperation.removeMessagesForThreads tids, db =>
    Except.ok { db with
      messages := db.messages.filter (fun m => !(tids.contains m.thread)) }
  | MessageStoreOperation.replaceMessage msg media, db =>
    Except.ok
      { messages :=
          msg :: db.messages.filter (fun m => !(m.id = msg.id)),
        media :=
          media ++ db.media.filter (fun md => !(md.container = msg.id)) }
  | MessageStoreOperation.rekeyMessage f t, db =>
    Except.ok
      { messages := db.messages.map (fun m =>
          if m.thread = f then { m with thread := t } else m),
        media := db.media.map (fun md =>
          if md.thread = f then { md with thread := t } else md) }

/-- Network client handle as constructed by `initializeNetworkModule`
(lines 464-479): host, the fixed port string, whether SSL credentials
were selected, user id and device token. -/
structure NetworkClient where
  host : String
  port : String
  secure : Bool
  userId : String
  deviceToken : String
  deriving DecidableEq, Repr

/-- `initializeNetworkModule` (lines 464-479): an empty hostname is
replaced by "localhost"; SSL credentials are chosen exactly when
`host.substr(0, 5) == "https"` (modelled as `take 5` on the character
list, matching substr's clamping to the string's size); the port is the
constant "50051". -/
def initializeNetworkModule (userId : String) (deviceToken : String)
    (hostname : String) : NetworkClient :=
  let host := if hostname.isEmpty then "localhost" else hostname
  let secure : Bool := host.toList.take 5 = "https".toList
  { host := host, port := "50051", secure := secure,
    userId := userId, deviceToken := deviceToken }

/-- Persisted olm session row (entities/OlmPersistSession). -/
structure OlmPersistSession where
  target_user_id : String
  session_data : String
  deriving DecidableEq, Repr

/-- crypto::Persist: the account blob buffer (default-constructed empty)
and the per-peer session blobs. -/
structure Persist where
  account : String
  sessions : List (String × String)
  deriving DecidableEq, Repr

/-- Modelled from the spec: crypto::Persist::isEmpty is not under src/;
the spec branches the bootstrap on "whether loaded state is empty", and
the loaded account buffer is filled only when a persisted account blob
was found, so emptiness of the account buffer decides the branch. -/
def Persist.isEmpty (p : Persist) : Bool := p.account.length == 0

/-- Modelled from the spec: the crypto module is exposed to this core
only as construct/serialize/restore/export (spec 6); its implementation
is not under src/.  We model an instance by its construction inputs:
the user id, the secret key, and the persisted state handed to the
constructor. -/
structure CryptoModule where
  userId : String
  secretKey : String
  persist : Persist
  deriving DecidableEq, Repr

/-- Modelled from the spec: `storeAsB64(secretKey)` serializes the
identity into a persistable state; modelled as a non-empty encoding of
the identity's user id and secret key. -/
def CryptoModule.storeAsB64 (m : CryptoModule) (secretKey : String) :
    Persist :=
  { account := "olm-account|" ++ m.userId ++ "|" ++ secretKey,
    sessions := [] }

/-- Modelled from the spec: `restoreFromB64(secretKey, persist)`
restores the identity from the persisted state. -/
def CryptoModule.restoreFromB64 (m : CryptoModule) (secretKey : String)
    (p : Persist) : CryptoModule :=
  { m with secretKey := secretKey, persist := p }

/-- Modelled from the spec: `exportIdentityKeys() -> string`
(getIdentityKeys), a string derived from the identity. -/
def CryptoModule.getIdentityKeys (m : CryptoModule) : String :=
  "identity-keys|" ++ m.userId ++ "|" ++ m.secretKey

/-- Modelled from the spec: `exportOneTimeKeys() -> string`
(getOneTimeKeys), a string derived from the identity. -/
def CryptoModule.getOneTimeKeys (m : CryptoModule) : String :=
  "one-time-keys|" ++ m.userId ++ "|" ++ m.secretKey

/-- State threaded through the crypto bootstrap and the key-export
operations: the secure store's entry under secureStoreAccountDataKey,
the store's persisted olm account blob and session rows, and the
in-memory `cryptoModule` pointer (`none` is the null pointer). -/
structure CoreState where
  secureStoreKey : Option String
  olmAccountData : Option String
  olmSessions : List OlmPersistSession
  cryptoModule : Option CryptoModule
  deriving DecidableEq, Repr

/-- Environment oracle for the two fallible store calls inside
`initializeCryptoAccount`: whether the persisted-state load
(getOlmPersistAccountData / getOlmPersistSessionsData) throws and with
what message, and likewise for the persist-back (storeOlmPersistData). -/
structure DbOracle where
  loadFails : Bool
  loadError : String
  storeFails : Bool
  storeError : String
  deriving DecidableEq, Repr

/-- Observable steps of one `initializeCryptoAccount` run: generation of
a fresh secret key, construction of the crypto module from a loaded
persist, persisting the freshly serialized identity, restoring from the
loaded persist. -/
inductive CryptoEvent where
  | generatedKey (k : String)
  | constructed (userId : String) (secretKey : String) (p : Persist)
  | persistedFresh (p : Persist)
  | restored (userId : String) (secretKey : String) (p : Persist)
  deriving DecidableEq, Repr

/-- Result of one `initializeCryptoAccount` call: final state, the
settlements performed on the call's promise, and the event trace. -/
structure InitResult where
  state : CoreState
  settlements : List Settlement
  events : List CryptoEvent
  deriving DecidableEq, Repr

/-- `initializeCryptoAccount` (lines 385-462).  Caller thread: read the
secret key from the secure store, generating and storing a fresh one
(`freshKey`) when absent.  Database task: load the persisted account
blob and session rows, catching any store error into `error`.  Crypto
task: NOTE — the task body redeclares `std::string error;` (line 425),
shadowing the captured load error, so the load error is never consulted
below this point (mirrored faithfully here); it constructs the crypto
module from the loaded persist, then either (fresh branch, empty
persist) serializes and schedules a database task that persists the
serialized state and settles the promise from that task's own error, or
(restore branch) restores from the persist and settles by checking the
shadowed — hence empty — error, i.e. always resolves. -/
def initializeCryptoAccount (freshKey : String) (oracle : DbOracle)
    (userId : String) (st : CoreState) : InitResult :=
  let keyed : String × CoreState × List CryptoEvent :=
    match st.secureStoreKey with
    | some k => (k, st, [])
    | none =>
      (freshKey, { st with secureStoreKey := some freshKey },
       [CryptoEvent.generatedKey freshKey])
  let storedSecretKey := keyed.1
  let st1 := keyed.2.1
  let ev1 := keyed.2.2
  let loaded : Persist × String :=
    if oracle.loadFails then ({ account := "", sessions := [] }, oracle.loadError)
    else
      match st1.olmAccountData with
      | some a =>
        ({ account := a,
           sessions := st1.olmSessions.map
             (fun s => (s.target_user_id, s.session_data)) }, "")
      | none => ({ account := "", sessions := [] }, "")
  let persist := loaded.1
  let m : CryptoModule :=
    { userId := userId, secretKey := storedSecretKey, persist := persist }
  let st2 := { st1 with cryptoModule := some m }
  let ev2 := ev1 ++ [CryptoEvent.constructed userId storedSecretKey persist]
  if persist.isEmpty then
    let newPersist := m.storeAsB64 storedSecretKey
    if oracle.storeFails then
      { state := st2,
        settlements := [Settlement.rejected oracle.storeError],
        events := ev2 }
    else
      { state := { st2 with
          olmAccountData := some newPersist.account,
          olmSessions := newPersist.sessions.map
            (fun kv => { target_user_id := kv.1, session_data := kv.2 }) },
        settlements := [Settlement.resolved],
        events := ev2 ++ [CryptoEvent.persistedFresh newPersist] }
  else
    let m2 := m.restoreFromB64 storedSecretKey persist
    { state := { st2 with cryptoModule := some m2 },
      settlements := [Settlement.resolved],
      events := ev2 ++ [CryptoEvent.restored userId storedSecretKey persist] }

/-- `getUserPublicKey` (lines 481-502): reject with "user has not been
initialized" when the crypto module pointer is null, otherwise resolve
with the identity keys. -/
def getUserPublicKey (st : CoreState) : Settlement :=
  match st.cryptoModule with
  | none => Settlement.rejected "user has not been initialized"
  | some m => Settlement.resolvedStr m.getIdentityKeys

/-- `getUserOneTimeKeys` (lines 504-525): reject with "user has not
been initialized" when the crypto module pointer is null, otherwise
resolve with the one-time keys. -/
def getUserOneTimeKeys (st : CoreState) : Settlement :=
  match st.cryptoModule with
  | none => Settlement.rejected "user has not been initialized"
  | some m => Settlement.resolvedStr m.getOneTimeKeys

/-- Fresh core state of a process that has never bootstrapped: nothing
in the secure store, nothing persisted, null crypto module. -/
def emptyState : CoreState :=
  { secureStoreKey := none, olmAccountData := none,
    olmSessions := [], cryptoModule := none }

/-- Oracle of an environment in which every store call succeeds. -/
def okOracle : DbOracle :=
  { loadFails := false, loadError := "",
    storeFails := false, storeError := "" }

/-- Process restart: the in-memory crypto module pointer is lost, the
secure store and the persistent store survive. -/
def restart (st : CoreState) : CoreState :=
  { st with cryptoModule := none }

/-- The count the `getAllDrafts` job computes with count_if
(lines 105-108): the number of drafts with non-empty text. -/
def getAllDraftsCount (drafts : List Draft) : Nat :=
  drafts.countP (fun d => !d.text.isEmpty)

/-- The fill loop of `getAllDrafts` (lines 119-128): walk the drafts in
order, skip every empty-text draft, append each remaining draft (key and
text) at the next write index. -/
def fillDrafts : List Draft → List Draft
  | [] => []
  | d :: ds => if d.text.isEmpty then fillDrafts ds else d :: fillDrafts ds

/-- `getAllDrafts` (lines 96-134): given the store's drafts, the job
resolves the promise with the array produced by the fill loop. -/
def getAllDrafts (drafts : List Draft) : Settlement :=
  Settlement.resolvedDrafts (fillDrafts drafts)

/-- The fill loop keeps exactly the drafts the count_if predicate
counts: it is the filter by non-empty text. -/
theorem fillDrafts_eq_filter (drafts : List Draft) :
    fillDrafts drafts = drafts.filter (fun d => !d.text.isEmpty) := by
  induction drafts with
  | nil => rfl
  | cons d ds ih =>
    cases hd : d.text.isEmpty <;>
      simp [fillDrafts, hd, ih, List.filter_cons]

/-- The executed prefix reported by `applyOpsTrace` is a prefix of the
batch, in the caller's order. -/
theorem applyOpsTrace_executed_prefix
    (execOp : MessageStoreOperation → DB → Except String DB)
    (ops : List MessageStoreOperation) (db : DB) :
    (applyOpsTrace execOp ops db).1 <+: ops := by
  induction ops generalizing db with
  | nil => simp [applyOpsTrace]
  | cons op rest ih =>
    simp only [applyOpsTrace]
    cases hop : execOp op db with
    | ok db2 => simpa using ih db2
    | error e => simp

/-- When the batch job reaches the commit, every operation in the batch
was executed. -/
theorem applyOpsTrace_ok_executed_all
    (execOp : MessageStoreOperation → DB → Except String DB)
    (ops : List MessageStoreOperation) (db : DB) (db2 : DB)
    (h : (applyOpsTrace execOp ops db).2 = Except.ok db2) :
    (applyOpsTrace execOp ops db).1 = ops := by
  induction ops generalizing db with
  | nil => rfl
  | cons op rest ih =>
    simp only [applyOpsTrace] at h ⊢
    cases hop : execOp op db with
    | ok db3 =>
      simp only [hop] at h ⊢
      simpa using ih db3 h
    | error e => simp [hop] at h

/-- The account blob serialized for a fresh identity is never the empty
buffer, so a later bootstrap that loads it takes the restore branch. -/
theorem storeAsB64_account_isEmpty_false (u k sk : String) (p : Persist) :
    Persist.isEmpty
      (CryptoModule.storeAsB64
        { userId := u, secretKey := k, persist := p } sk) = false := by
  simp only [CryptoModule.storeAsB64, Persist.isEmpty, beq_eq_false_iff_ne]
  intro h
  rw [String.length_append, String.length_append,
    String.length_append] at h
  have h12 : ("olm-account|").length = 12 := rfl
  omega

/-- C8: for every store state, `getAllDrafts` resolves with exactly the
drafts whose text is non-empty (each keeping its key and text), excludes
every empty-text draft, resolves with the empty array on an empty store,
and the length of the resolved array equals the count_if count of
non-empty-text drafts. -/
theorem getAllDrafts_filters_empty_text (drafts : List Draft) :
    getAllDrafts drafts = Settlement.resolvedDrafts (fillDrafts drafts) ∧
    (∀ d : Draft, d ∈ fillDrafts drafts ↔
      d ∈ drafts ∧ d.text.isEmpty = false) ∧
    getAllDrafts [] = Settlement.resolvedDrafts [] ∧
    (fillDrafts drafts).length = getAllDraftsCount drafts := by
  refine ⟨rfl, ?_, rfl, ?_⟩
  · intro d
    rw [fillDrafts_eq_filter, List.mem_filter]
    simp
  · rw [fillDrafts_eq_filter, getAllDraftsCount,
      List.countP_eq_length_filter]

/-- C9: `initializeNetworkModule` selects SSL channel credentials if
and only if the hostname begins with the scheme prefix "https";
otherwise the client is built with insecure channel credentials. -/
theorem initializeNetworkModule_secure_iff_https (u d h : String) :
    ((initializeNetworkModule u d h).secure = true) ↔
      "https".toList <+: h.toList := by
  cases hh : h.isEmpty with
  | true =>
    have he : h = "" := (String.isEmpty_iff h).mp hh
    subst he
    have hs : (initializeNetworkModule u d "").secure = false := rfl
    rw [hs]
    decide
  | false =>
    have hsec : (initializeNetworkModule u d h).secure =
        decide (h.toList.take 5 = "https".toList) := by
      simp [initializeNetworkModule, hh]
    rw [hsec, decide_eq_true_iff, List.prefix_iff_eq_take]
    have hlen : ("https".toList).length = 5 := by decide
    rw [hlen]
    exact ⟨fun he2 => he2.symm, fun he2 => he2.symm⟩

/-- The construction loop returns the already-rejected unsupported
promise at the first unsupported type tag when every earlier element
parses; the remaining elements are never examined. -/
theorem parseOps_append_unsupported
    (good : List RawOp) (bad : RawOp) (rest : List RawOp) (t : String)
    (hgood : ∀ r ∈ good, ∃ op, parseRawOp r = ParsedStep.ok op)
    (hbad : parseRawOp bad = ParsedStep.unsupported t) :
    parseOps (good ++ bad :: rest) =
      ParseOutcome.earlyReject ("unsupported operation: " ++ t) := by
  induction good with
  | nil => simp [parseOps, hbad]
  | cons r g ih =>
    obtain ⟨op, hop⟩ := hgood r (List.mem_cons_self r g)
    have ih2 := ih (fun r2 hr2 => hgood r2 (List.mem_cons_of_mem r hr2))
    simp [parseOps, hop, ih2]

/-- C1: on a batch whose construction loop succeeds, one database job
runs a single transaction: it opens the transaction once, invokes each
operation's execute in the caller's order, commits exactly when every
execute succeeds (resolving the handle), and on any failure performs no
commit, leaves the committed store unchanged, and rejects the handle
with that single error. -/
theorem processMessageStoreOperations_atomic
    (execOp : MessageStoreOperation → DB → Except String DB)
    (rawOps : List RawOp) (ops : List MessageStoreOperation) (db : DB)
    (h : parseOps rawOps = ParseOutcome.parsed ops) :
    (processMessageStoreOperations execOp rawOps db).thrown = none ∧
    (processMessageStoreOperations execOp rawOps db).dbTaskSubmitted
      = true ∧
    ((∃ db2, applyOpsTrace execOp ops db = (ops, Except.ok db2) ∧
        processMessageStoreOperations execOp rawOps db =
          { thrown := none, settlements := [Settlement.resolved],
            dbTaskSubmitted := true,
            trace := StoreEvent.begin ::
              (ops.map StoreEvent.apply ++ [StoreEvent.commit]),
            db := db2 }) ∨
     (∃ executed e,
        applyOpsTrace execOp ops db = (executed, Except.error e) ∧
        executed <+: ops ∧
        StoreEvent.commit ∉
          (StoreEvent.begin :: executed.map StoreEvent.apply) ∧
        processMessageStoreOperations execOp rawOps db =
          { thrown := none,
            settlements := [Settlement.rejected e],
            dbTaskSubmitted := true,
            trace := StoreEvent.begin :: executed.map StoreEvent.apply,
            db := db })) := by
  rcases hpair : applyOpsTrace execOp ops db with ⟨executed, res⟩
  cases res with
  | ok db2 =>
    have hall : executed = ops := by
      have h2 := applyOpsTrace_ok_executed_all execOp ops db db2
        (by rw [hpair])
      rwa [hpair] at h2
    subst hall
    simp [processMessageStoreOperations, h, hpair]
  | error e =>
    have hpref : executed <+: ops := by
      have h2 := applyOpsTrace_executed_prefix execOp ops db
      rwa [hpair] at h2
    simp [processMessageStoreOperations, h, hpair, List.mem_map]
    exact ⟨executed, ⟨e, ⟨rfl, rfl⟩, hpref, rfl, rfl⟩⟩

/-- C5 (amended): when everything before the first unsupported type tag
parses, the call settles the handle with exactly one rejection carrying
the unsupported-operation error, submits no database task, opens no
transaction, and leaves the store unchanged. -/
theorem processMessageStoreOperations_unsupported_rejects_early
    (execOp : MessageStoreOperation → DB → Except String DB)
    (good : List RawOp) (bad : RawOp) (rest : List RawOp) (db : DB)
    (t : String)
    (hgood : ∀ r ∈ good, ∃ op, parseRawOp r = ParsedStep.ok op)
    (hbad : parseRawOp bad = ParsedStep.unsupported t) :
    processMessageStoreOperations execOp (good ++ bad :: rest) db =
      { thrown := none,
        settlements :=
          [Settlement.rejected ("unsupported operation: " ++ t)],
        dbTaskSubmitted := false, trace := [], db := db } := by
  simp only [processMessageStoreOperations,
    parseOps_append_unsupported good bad rest t hgood hbad]

/-- C5 (counterexample): a batch that does contain an unsupported
operation, but whose earlier `replace` payload has a non-numeric `time`,
makes the call throw std::stoll's error synchronously: no promise
exists, so nothing is rejected with an unsupported-operation error. -/
theorem processMessageStoreOperations_unsupported_after_malformed :
    (let res := processMessageStoreOperations execOpSpec
        [ { type := "replace", payload := RawPayload.replaceMsg
              { id := "m1", local_id := none, thread := "t1",
                user := "u1", type := "0", future_type := none,
                content := none, time := "abc", media_infos := none } },
          { type := "frobnicate", payload := RawPayload.removeIds [] } ]
        { messages := [], media := [] }
     res.settlements = [] ∧ res.thrown = some "stoll") ∧
    parseRawOp { type := "frobnicate", payload := RawPayload.removeIds [] }
      = ParsedStep.unsupported "frobnicate" := by
  exact ⟨⟨rfl, rfl⟩, rfl⟩

/-- C7 (amended): a malformed payload is detected synchronously on the
caller thread during the construction loop: no task is submitted, no
transaction runs, the store is untouched — but the error escapes the
call as a synchronous exception, so no promise handle exists and none
is rejected. -/
theorem processMessageStoreOperations_malformed_throws
    (execOp : MessageStoreOperation → DB → Except String DB)
    (rawOps : List RawOp) (db : DB) (e : String)
    (h : parseOps rawOps = ParseOutcome.thrown e) :
    processMessageStoreOperations execOp rawOps db =
      { thrown := some e, settlements := [], dbTaskSubmitted := false,
        trace := [], db := db } := by
  simp only [processMessageStoreOperations, h]

/-- C7 (counterexample): a single `replace` operation whose `time` is
the non-numeric string "xyz" makes the call throw std::stoll's error
synchronously; no handle is settled, so in particular no handle is
rejected. -/
theorem processMessageStoreOperations_malformed_no_handle :
    let res := processMessageStoreOperations execOpSpec
        [ { type := "replace", payload := RawPayload.replaceMsg
              { id := "m2", local_id := none, thread := "t2",
                user := "u2", type := "1", future_type := some "2",
                content := some "hello", time := "xyz",
                media_infos := none } } ]
        { messages := [], media := [] }
    res.thrown = some "stoll" ∧ res.settlements = [] ∧
    res.dbTaskSubmitted = false ∧
    res.db = { messages := [], media := [] } := by
  exact ⟨rfl, rfl, rfl, rfl⟩

/-- C10: with an empty hostname the client is built against host
"localhost" with insecure credentials, and the port is the constant
"50051" for every call. -/
theorem initializeNetworkModule_defaults (u d : String) :
    (initializeNetworkModule u d "").host = "localhost" ∧
    (initializeNetworkModule u d "").secure = false ∧
    (∀ h : String, (initializeNetworkModule u d h).port = "50051") := by
  refine ⟨rfl, rfl, fun h => rfl⟩

/-- C6: whenever a pending-result handle exists (the call did not throw
during payload construction), the execution settles it exactly once:
`processMessageStoreOperations` on every parse/apply path, and
`initializeCryptoAccount` on every load/branch/persist path, each
perform exactly one resolve-or-reject on their handle. -/
theorem handles_settled_exactly_once
    (execOp : MessageStoreOperation → DB → Except String DB)
    (rawOps : List RawOp) (db : DB) (freshKey : String)
    (oracle : DbOracle) (userId : String) (st : CoreState)
    (h : (processMessageStoreOperations execOp rawOps db).thrown = none) :
    (processMessageStoreOperations execOp rawOps db).settlements.length
      = 1 ∧
    (initializeCryptoAccount freshKey oracle userId st).settlements.length
      = 1 := by
  constructor
  · cases hp : parseOps rawOps with
    | thrown e => simp [processMessageStoreOperations, hp] at h
    | earlyReject e => simp [processMessageStoreOperations, hp]
    | parsed ops =>
      simp only [processMessageStoreOperations, hp]
      rcases hpair : applyOpsTrace execOp ops db with ⟨executed, res⟩
      cases res <;> simp
  · cases hsk : st.secureStoreKey <;>
      simp only [initializeCryptoAccount, hsk] <;>
      split <;> try split
    all_goals try split
    all_goals simp

/-- C2: starting from a fresh process and empty stores, a first
successful `initializeCryptoAccount` followed by a process restart and a
second call (with whatever fresh randomness) is idempotent: the second
call generates no key, reads the stored secret of the first call, finds
the persisted identity state non-empty, takes the restore path on
exactly that state, and ends with a module carrying the same user and
secret key — no divergent second key or identity. -/
theorem initializeCryptoAccount_idempotent (userId k k2 : String) :
    let r1 : InitResult := initializeCryptoAccount k okOracle userId emptyState
    let r2 : InitResult :=
      initializeCryptoAccount k2 okOracle userId (restart r1.state)
    (∀ k3 : String, CryptoEvent.generatedKey k3 ∉ r2.events) ∧
    r2.state.secureStoreKey = some k ∧
    (∃ p : Persist, Persist.isEmpty p = false ∧
      r1.state.olmAccountData = some p.account ∧
      r2.events = [CryptoEvent.constructed userId k p,
                   CryptoEvent.restored userId k p]) ∧
    (∃ m : CryptoModule, r2.state.cryptoModule = some m ∧
      m.secretKey = k ∧ m.userId = userId) ∧
    r2.state.olmAccountData = r1.state.olmAccountData ∧
    r2.settlements = [Settlement.resolved] := by
  intro r1 r2
  have hr1 : r1 =
      { state :=
          { secureStoreKey := some k,
            olmAccountData := some ("olm-account|" ++ userId ++ "|" ++ k),
            olmSessions := [],
            cryptoModule := some
              { userId := userId, secretKey := k,
                persist := { account := "", sessions := [] } } },
        settlements := [Settlement.resolved],
        events :=
          [CryptoEvent.generatedKey k,
           CryptoEvent.constructed userId k { account := "", sessions := [] },
           CryptoEvent.persistedFresh
             { account := "olm-account|" ++ userId ++ "|" ++ k,
               sessions := [] }] } := rfl
  have hne : Persist.isEmpty
      { account := "olm-account|" ++ userId ++ "|" ++ k, sessions := [] }
      = false :=
    storeAsB64_account_isEmpty_false userId k k
      { account := "", sessions := [] }
  have hr2 : r2 =
      { state :=
          { secureStoreKey := some k,
            olmAccountData := some ("olm-account|" ++ userId ++ "|" ++ k),
            olmSessions := [],
            cryptoModule := some
              { userId := userId, secretKey := k,
                persist :=
                  { account := "olm-account|" ++ userId ++ "|" ++ k,
                    sessions := [] } } },
        settlements := [Settlement.resolved],
        events :=
          [CryptoEvent.constructed userId k
             { account := "olm-account|" ++ userId ++ "|" ++ k,
               sessions := [] },
           CryptoEvent.restored userId k
             { account := "olm-account|" ++ userId ++ "|" ++ k,
               sessions := [] }] } := by
    show initializeCryptoAccount k2 okOracle userId (restart r1.state) = _
    rw [hr1]
    simp [initializeCryptoAccount, restart, okOracle, hne,
      CryptoModule.restoreFromB64]
  rw [hr1, hr2]
  refine ⟨?_, rfl, ?_, ?_, rfl, rfl⟩
  · intro k3
    simp
  · exact ⟨{ account := "olm-account|" ++ userId ++ "|" ++ k,
             sessions := [] }, hne, rfl, rfl⟩
  · exact ⟨{ userId := userId, secretKey := k,
             persist := { account := "olm-account|" ++ userId ++ "|" ++ k,
                          sessions := [] } }, rfl, rfl, rfl⟩

/-- C3 (counterexample): when the fresh-path persist fails, the
bootstrap never reaches Ready — its handle is rejected and nothing is
persisted — yet the crypto module pointer was already set at
construction, so `getUserPublicKey` and `getUserOneTimeKeys` resolve
with keys instead of rejecting with the not-initialized error. -/
theorem key_export_after_failed_persist_returns_keys :
    let oracle : DbOracle :=
      { loadFails := false, loadError := "",
        storeFails := true, storeError := "store failure" }
    let r := initializeCryptoAccount "secret-key" oracle "alice" emptyState
    r.settlements = [Settlement.rejected "store failure"] ∧
    r.state.olmAccountData = none ∧
    getUserPublicKey r.state
      = Settlement.resolvedStr "identity-keys|alice|secret-key" ∧
    getUserPublicKey r.state
      ≠ Settlement.rejected "user has not been initialized" ∧
    getUserOneTimeKeys r.state
      = Settlement.resolvedStr "one-time-keys|alice|secret-key" ∧
    getUserOneTimeKeys r.state
      ≠ Settlement.rejected "user has not been initialized" := by
  refine ⟨rfl, rfl, rfl, by decide, rfl, by decide⟩

/-- C3 (amended): the key-export operations reject with the explicit
"user has not been initialized" error exactly while the crypto module
pointer is null — that is, before `initializeCryptoAccount` constructs
the module; from construction on (even before, or without, successful
persistence of the fresh identity) they resolve with the module's
keys. -/
theorem key_export_rejects_iff_module_null (st : CoreState) :
    (st.cryptoModule = none →
      getUserPublicKey st
          = Settlement.rejected "user has not been initialized" ∧
      getUserOneTimeKeys st
          = Settlement.rejected "user has not been initialized") ∧
    (∀ m : CryptoModule, st.cryptoModule = some m →
      getUserPublicKey st = Settlement.resolvedStr m.getIdentityKeys ∧
      getUserOneTimeKeys st = Settlement.resolvedStr m.getOneTimeKeys) := by
  constructor
  · intro hnone
    simp [getUserPublicKey, getUserOneTimeKeys, hnone]
  · intro m hm
    simp [getUserPublicKey, getUserOneTimeKeys, hm]

/-- C3 (amended, witness): on the fresh state the export operations
reject with the not-initialized error. -/
theorem key_export_rejects_iff_module_null_witness :
    getUserPublicKey emptyState
        = Settlement.rejected "user has not been initialized" ∧
    getUserOneTimeKeys emptyState
        = Settlement.rejected "user has not been initialized" :=
  (key_export_rejects_iff_module_null emptyState).1 rfl

/-- C4 (code evaluation at the failing input): when the persisted-state
load throws a store error, the error is caught at the task boundary but
then shadowed by the crypto task's own `error` variable, so the call
proceeds to construct a fresh identity, persists it over the store, and
resolves the handle — the load error is never delivered to the
caller. -/
theorem initializeCryptoAccount_load_error_dropped :
    let oracle : DbOracle :=
      { loadFails := true, loadError := "db load error",
        storeFails := false, storeError := "" }
    let r := initializeCryptoAccount "sk0" oracle "bob" emptyState
    r.settlements = [Settlement.resolved] ∧
    Settlement.rejected "db load error" ∉ r.settlements ∧
    (∃ m : CryptoModule, r.state.cryptoModule = some m) ∧
    r.state.olmAccountData = some "olm-account|bob|sk0" := by
  refine ⟨rfl, by decide, ⟨_, rfl⟩, rfl⟩

/-- C1 (witness): a concrete one-operation batch parses, and the call
submits the database job. -/
theorem processMessageStoreOperations_atomic_witness :
    parseOps [ { type := "remove", payload := RawPayload.removeIds ["w1"] } ]
      = ParseOutcome.parsed [MessageStoreOperation.removeMessages ["w1"]] ∧
    (processMessageStoreOperations execOpSpec
      [ { type := "remove", payload := RawPayload.removeIds ["w1"] } ]
      { messages := [], media := [] }).dbTaskSubmitted = true :=
  ⟨by decide,
   (processMessageStoreOperations_atomic execOpSpec
      [ { type := "remove", payload := RawPayload.removeIds ["w1"] } ]
      [MessageStoreOperation.removeMessages ["w1"]]
      { messages := [], media := [] } (by decide)).2.1⟩

/-- C5 (witness): a well-formed rekey followed by an unsupported tag is
rejected with the unsupported-operation error, untouched store, no
task. -/
theorem processMessageStoreOperations_unsupported_rejects_early_witness :
    parseRawOp { type := "weird", payload := RawPayload.removeIds [] }
      = ParsedStep.unsupported "weird" ∧
    processMessageStoreOperations execOpSpec
      ([ { type := "rekey", payload := RawPayload.rekey "a" "b" } ] ++
        { type := "weird", payload := RawPayload.removeIds [] } :: [])
      { messages := [], media := [] }
      = { thrown := none,
          settlements :=
            [Settlement.rejected ("unsupported operation: " ++ "weird")],
          dbTaskSubmitted := false, trace := [],
          db := { messages := [], media := [] } } :=
  ⟨by decide,
   processMessageStoreOperations_unsupported_rejects_early execOpSpec
     [ { type := "rekey", payload := RawPayload.rekey "a" "b" } ]
     { type := "weird", payload := RawPayload.removeIds [] } []
     { messages := [], media := [] } "weird"
     (by
       intro r hr
       rw [List.mem_singleton] at hr
       subst hr
       exact ⟨MessageStoreOperation.rekeyMessage "a" "b", by decide⟩)
     (by decide)⟩

/-- C6 (witness): a concrete non-throwing batch call and a concrete
bootstrap each settle their handle exactly once. -/
theorem handles_settled_exactly_once_witness :
    (processMessageStoreOperations execOpSpec []
        { messages := [], media := [] }).thrown = none ∧
    ((processMessageStoreOperations execOpSpec []
        { messages := [], media := [] }).settlements.length = 1 ∧
     (initializeCryptoAccount "wk" okOracle "carol"
        emptyState).settlements.length = 1) :=
  ⟨rfl,
   handles_settled_exactly_once execOpSpec []
     { messages := [], media := [] } "wk" okOracle "carol" emptyState rfl⟩

/-- C7 (witness): a concrete batch whose `replace` payload has the
non-numeric time "foo" throws std::stoll's error out of the call,
with no task, no settlement and an untouched store. -/
theorem processMessageStoreOperations_malformed_throws_witness :
    parseOps
      [ { type := "replace", payload := RawPayload.replaceMsg
            { id := "m3", local_id := none, thread := "t3", user := "u3",
              type := "4", future_type := none, content := none,
              time := "foo", media_infos := none } } ]
      = ParseOutcome.thrown "stoll" ∧
    processMessageStoreOperations execOpSpec
      [ { type := "replace", payload := RawPayload.replaceMsg
            { id := "m3", local_id := none, thread := "t3", user := "u3",
              type := "4", future_type := none, content := none,
              time := "foo", media_infos := none } } ]
      { messages := [], media := [] }
      = { thrown := some "stoll", settlements := [],
          dbTaskSubmitted := false, trace := [],
          db := { messages := [], media := [] } } :=
  ⟨by decide,
   processMessageStoreOperations_malformed_throws execOpSpec
     [ { type := "replace", payload := RawPayload.replaceMsg
           { id := "m3", local_id := none, thread := "t3", user := "u3",
             type := "4", future_type := none, content := none,
             time := "foo", media_infos := none } } ]
     { messages := [], media := [] } "stoll" (by decide)⟩

end Comm
